import Mathlib

/-!
Verification development for the request/response dispatch core of the
`twilly` / `twilio_rust` Twilio client crates: credential construction,
the typed dispatch primitive and its error classification, HTTP request
building (parameter placement and Basic authentication), local parameter
validation, and the eager pagination loop.

Each definition is a shallow embedding of the corresponding Rust item.
The HTTP transport and serde (de)serialization are abstracted as explicit
function arguments: a transport outcome is a value of
`Except ReqwestError (HttpResponse body)`, and a serde `response.json::<T>()`
call is a decoder `body → Except ReqwestError T`, mirroring exactly the
points where the Rust code consumes those effects.
-/

deriving instance DecidableEq for Except

/-- Stand-in for `reqwest::Error` values. The code only moves these around
(it never inspects them), so any inhabited type with decidable equality
serves; `String` keeps witnesses concrete. -/
abbrev ReqwestError := String

/-- A received HTTP response (`reqwest::blocking::Response`): numeric status
code plus a raw body of type `β` (deserialization of the body is abstracted
by decoder functions). -/
structure HttpResponse (β : Type) where
  status : Nat
  body : β
deriving Repr, DecidableEq

/-- `reqwest::StatusCode::is_success`: the status class check `200 ≤ s < 300`. -/
def isSuccessStatus (s : Nat) : Bool :=
  200 ≤ s && s < 300

namespace Twilly

/-- `TwilioConfig` from `twilly/src/lib.rs`: account SID and auth token pair.
Both fields are `pub` in the source and the struct derives `Default` and
`Deserialize`, so arbitrary values are constructible without `build`. -/
structure TwilioConfig where
  account_sid : String
  auth_token : String
deriving Repr, DecidableEq

/-- `str::starts_with(prefix)`: character-wise prefix test. (Defined via
`List.isPrefixOf` on the character lists so concrete instances evaluate in
the kernel; `String.startsWith` is extensionally the same test but uses
well-founded recursion that does not reduce.) -/
def strStartsWith (s pre : String) : Bool :=
  pre.data.isPrefixOf s.data

/-- `TwilioConfig::build` from `twilly/src/lib.rs` (lines 59-81). The Rust
function panics on a malformed SID or token; a panic is embedded as
`Except.error` carrying the panic message. Rust `String::len` counts UTF-8
bytes, hence `String.utf8ByteSize`. -/
def TwilioConfig.build (account_sid : String) (auth_token : String) :
    Except String TwilioConfig :=
  if !strStartsWith account_sid "AC" then
    .error "Account SID must start with AC"
  else if account_sid.utf8ByteSize ≠ 34 then
    .error ("Account SID should be 34 characters in length. Was "
      ++ toString account_sid.utf8ByteSize)
  else if auth_token.utf8ByteSize ≠ 32 then
    .error ("Auth token should be 32 characters in length. Was "
      ++ toString auth_token.utf8ByteSize)
  else
    .ok { account_sid := account_sid, auth_token := auth_token }

/-- The `Client` struct: owns a config and a `reqwest::blocking::Client`
transport handle. The handle holds no observable state, so it is `Unit`. -/
structure Client where
  config : TwilioConfig
  client : Unit
deriving Repr, DecidableEq

/-- `Client::new` from `twilly/src/lib.rs` (lines 177-182): clones the given
config into the client, with no validation of any kind. -/
def Client.new (config : TwilioConfig) : Client :=
  { config := config, client := () }

/-- `TwilioApiError`: the structured error body Twilio returns on non-success
statuses (`code`, `message`, `more_info`, `status`). -/
structure TwilioApiError where
  code : Nat
  message : String
  more_info : String
  status : Nat
deriving Repr, DecidableEq

/-- `ErrorKind` from `twilly/src/lib.rs` (lines 105-114). -/
inductive ErrorKind where
  | ValidationError : String → ErrorKind
  | NetworkError : ReqwestError → ErrorKind
  | TwilioError : TwilioApiError → ErrorKind
  | ParsingError : ReqwestError → ErrorKind
deriving Repr, DecidableEq

/-- `TwilioError`: the crate error wrapper holding a `kind`. -/
structure TwilioError where
  kind : ErrorKind
deriving Repr, DecidableEq

/-- `Client::send_request` from `twilly/src/lib.rs` (lines 195-224).
`decodeT` embeds `response.json::<T>()`, `decodeErr` embeds
`response.json::<TwilioApiError>()`, and `httpResult` is the outcome of
`send_http_request` before its `NetworkError` wrapping (`send_http_request`
maps a transport failure into `ErrorKind::NetworkError`, which `?`
propagates; that wrapping is inlined here). -/
def send_request {α β : Type} (decodeT : β → Except ReqwestError α)
    (decodeErr : β → Except ReqwestError TwilioApiError)
    (httpResult : Except ReqwestError (HttpResponse β)) :
    Except TwilioError α :=
  match httpResult with
  | .error e => .error { kind := .NetworkError e }
  | .ok response =>
    match isSuccessStatus response.status with
    | true =>
      match decodeT response.body with
      | .ok value => .ok value
      | .error e => .error { kind := .ParsingError e }
    | false =>
      match decodeErr response.body with
      | .ok twilio_error => .error { kind := .TwilioError twilio_error }
      | .error e => .error { kind := .ParsingError e }

/-- `Client::send_request_and_ignore_response` from `twilly/src/lib.rs`
(lines 230-256): same dispatch, but a success-status body is discarded
without being parsed. -/
def send_request_and_ignore_response {β : Type}
    (decodeErr : β → Except ReqwestError TwilioApiError)
    (httpResult : Except ReqwestError (HttpResponse β)) :
    Except TwilioError Unit :=
  match httpResult with
  | .error e => .error { kind := .NetworkError e }
  | .ok response =>
    match isSuccessStatus response.status with
    | true => .ok ()
    | false =>
      match decodeErr response.body with
      | .ok twilio_error => .error { kind := .TwilioError twilio_error }
      | .error e => .error { kind := .ParsingError e }

/-- The HTTP methods the crate uses (`reqwest::Method`). -/
inductive Method where
  | GET
  | POST
  | PUT
  | DELETE
deriving Repr, DecidableEq

/-- Uppercase hexadecimal digit for `n < 16`, as produced by
`url::form_urlencoded`'s percent-encoder. -/
def hexDigit (n : Nat) : Char :=
  if n < 10 then Char.ofNat (48 + n) else Char.ofNat (55 + n)

/-- Bytes left unencoded by `url::form_urlencoded` (the encoder behind both
`RequestBuilder::query` and `RequestBuilder::form` via `serde_urlencoded`):
ASCII alphanumerics and `*`, `-`, `.`, `_`. -/
def isUrlSafeByte (b : Nat) : Bool :=
  (48 ≤ b && b ≤ 57) || (65 ≤ b && b ≤ 90) || (97 ≤ b && b ≤ 122)
    || b == 42 || b == 45 || b == 46 || b == 95

/-- Percent-encode one byte: safe bytes stay, space becomes `+`, every other
byte becomes `%XX` with uppercase hex. -/
def percentEncodeByte (b : Nat) : String :=
  if isUrlSafeByte b then String.singleton (Char.ofNat b)
  else if b == 32 then "+"
  else "%" ++ String.singleton (hexDigit (b / 16)) ++ String.singleton (hexDigit (b % 16))

/-- Form-urlencode a string: percent-encode each UTF-8 byte. -/
def formUrlEncodeString (s : String) : String :=
  String.join ((s.data.flatMap String.utf8EncodeChar).map (fun b => percentEncodeByte b.toNat))

/-- One `key=value` pair, both sides percent-encoded. -/
def formUrlEncodePair (p : String × String) : String :=
  formUrlEncodeString p.1 ++ "=" ++ formUrlEncodeString p.2

/-- `k1=v1&k2=v2&...`: the serialization `serde_urlencoded` produces for a
parameter struct, here already flattened to its key/value pairs. -/
def formUrlEncodePairs : List (String × String) → String
  | [] => ""
  | [p] => formUrlEncodePair p
  | p :: q :: rest => formUrlEncodePair p ++ "&" ++ formUrlEncodePairs (q :: rest)

/-- Serialization of the `Option<&U>` params argument: `None` serializes to
the empty string, `Some` to its pairs. -/
def encodeOptParams : Option (List (String × String)) → String
  | none => ""
  | some ps => formUrlEncodePairs ps

/-- `RequestBuilder::query` URL update: the serialized pairs are appended to
the URL's query component (after `&` if a query is already present, after
`?` otherwise); an empty serialization leaves the URL unchanged. -/
def appendQuery (url : String) (enc : String) : String :=
  if enc = "" then url
  else if url.data.contains '?' then url ++ "&" ++ enc
  else url ++ "?" ++ enc

/-- The observable request assembled by `send_http_request`: method, final
URL (query string included), HTTP Basic auth credentials, and body. -/
structure BuiltRequest where
  method : Method
  url : String
  basic_auth : Option (String × String)
  body : String
deriving Repr, DecidableEq

/-- `Client::send_http_request` from `twilly/src/lib.rs` (lines 260-286),
request-building part. For `Method::GET` the params go to the URL query
string via `.query(&params)` and no body is set; for every other method
they become the form-urlencoded body via `.form(&params)`. Both branches
attach `.basic_auth(account_sid, Some(auth_token))` unconditionally.
The actual network send and its `NetworkError` wrapping are the transport
abstraction consumed by `send_request`. -/
def send_http_request (config : TwilioConfig) (method : Method) (url : String)
    (params : Option (List (String × String))) : BuiltRequest :=
  match method with
  | .GET =>
    { method := method
      url := appendQuery url (encodeOptParams params)
      basic_auth := some (config.account_sid, config.auth_token)
      body := "" }
  | _ =>
    { method := method
      url := url
      basic_auth := some (config.account_sid, config.auth_token)
      body := encodeOptParams params }

/-- `PageMeta` from `twilly/src/lib.rs` (lines 157-164): the pagination
metadata every page response carries. -/
structure PageMeta where
  page : Nat
  page_size : Nat
  first_page_url : String
  previous_page_url : Option String
  next_page_url : Option String
  key : String
deriving Repr, DecidableEq

/-- One page of a listed resource: the items plus `meta`. The source defines
one such struct per resource with only the items field's name differing
(`ConversationPage.conversations`, `DocumentPage.documents`, ...); the field
is uniformly called `items` here. -/
structure ResourcePage (α : Type) where
  items : List α
  meta : PageMeta
deriving Repr, DecidableEq

/-- `State` from `twilly/src/conversation.rs`. -/
inductive Conversation.State where
  | Active
  | Inactive
  | Closed
deriving Repr, DecidableEq

/-- `Timers` from `twilly/src/conversation.rs`. -/
structure Conversation.Timers where
  date_inactive : Option String
  date_closed : Option String
deriving Repr, DecidableEq

/-- `Links` from `twilly/src/conversation.rs`. -/
structure Conversation.Links where
  participants : String
  messages : String
  webhooks : String
deriving Repr, DecidableEq

/-- `Conversation` from `twilly/src/conversation.rs`. -/
structure Conversation where
  sid : String
  account_sid : String
  chat_service_sid : String
  messaging_service_sid : String
  unique_name : Option String
  friendly_name : Option String
  date_created : String
  date_updated : String
  state : Conversation.State
  url : String
  attributes : String
  timers : Conversation.Timers
  links : Conversation.Links
deriving Repr, DecidableEq

/-- `ListParams` from `twilly/src/conversation.rs`: the filters attached to
the first page request of `Conversations::list`. -/
structure ListParams where
  start_date : Option String
  end_date : Option String
  state : Option Conversation.State
deriving Repr, DecidableEq

/-- The eager-pagination while-loop, inlined verbatim in every `list` of the
source (`conversation.rs` lines 176-188, `sync/documents.rs` lines 160-172,
`sync/services.rs` lines 135-147, ...): while the current page's
`next_page_url` is present, dispatch a follow-up request to exactly that URL
with no parameters, then append the returned page's items to the
accumulated results. `fetchNext` abstracts the follow-up
`send_request(Method::GET, url, None)`. `fuel` bounds the number of loop
iterations so the recursion is total; `none` means the loop did not finish
within `fuel` iterations (the Rust loop has no bound of its own). Alongside
the function's result the embedding returns, as ghost instrumentation, the
list of follow-up URLs dispatched, in call order. On a failed fetch the
`?` operator returns the error immediately and the accumulated `results`
vector is dropped. -/
def paginateLoop {α : Type} (fetchNext : String → Except TwilioError (ResourcePage α)) :
    Nat → ResourcePage α → List α → List String →
    Option (Except TwilioError (List α) × List String)
  | fuel, page, results, calls =>
    match page.meta.next_page_url with
    | none => some (.ok results, calls.reverse)
    | some url =>
      match fuel with
      | 0 => none
      | fuel' + 1 =>
        match fetchNext url with
        | .error e => some (.error e, (url :: calls).reverse)
        | .ok page' => paginateLoop fetchNext fuel' page' (results ++ page'.items) (url :: calls)

/-- The fixed URL of the first page request in `Conversations::list`. -/
def conversationsListUrl : String :=
  "https://conversations.twilio.com/v1/Conversations"

/-- `Conversations::list` from `twilly/src/conversation.rs` (lines 152-191):
one dispatch with the caller's `ListParams`, then the eager pagination loop.
`dispatch` abstracts `client.send_request` (URL and optional params; the
network and serde effects live inside it). The returned call trace (ghost
instrumentation) records every dispatch made, with the params value each
carried: the first call carries `some params`, follow-ups carry `none`. -/
def Conversations.list
    (dispatch : String → Option ListParams → Except TwilioError (ResourcePage Conversation))
    (params : ListParams) (fuel : Nat) :
    Option (Except TwilioError (List Conversation) × List (String × Option ListParams)) :=
  match dispatch conversationsListUrl (some params) with
  | .error e => some (.error e, [(conversationsListUrl, some params)])
  | .ok page =>
    match paginateLoop (fun url => dispatch url none) fuel page page.items [] with
    | none => none
    | some (result, followUps) =>
      some (result,
        (conversationsListUrl, some params) :: followUps.map (fun u => (u, none)))

/-- `Links` from `twilly/src/sync/documents.rs`. -/
structure SyncDocument.Links where
  permissions : String
deriving Repr, DecidableEq

/-- `SyncDocument` from `twilly/src/sync/documents.rs`. The `data` field is
a `serde_json::Value` in the source; it is opaque to the pagination code, so
it is embedded as its JSON text. -/
structure SyncDocument where
  sid : String
  unique_name : String
  account_sid : String
  service_sid : String
  url : String
  data : String
  date_created : String
  date_updated : String
  date_expires : Option String
  created_by : String
  links : SyncDocument.Links
  revision : String
deriving Repr, DecidableEq

/-- The URL of the first page request in `Documents::list`. -/
def documentsListUrl (service_sid : String) : String :=
  "https://sync.twilio.com/v1/Services/" ++ service_sid ++ "/Documents?PageSize=50"

/-- `Documents::list` from `twilly/src/sync/documents.rs` (lines 144-175):
first dispatch with `None` params, then the eager pagination loop, exactly
as `Conversations::list`. -/
def Documents.list
    (dispatch : String → Option Unit → Except TwilioError (ResourcePage SyncDocument))
    (service_sid : String) (fuel : Nat) :
    Option (Except TwilioError (List SyncDocument) × List (String × Option Unit)) :=
  match dispatch (documentsListUrl service_sid) none with
  | .error e => some (.error e, [(documentsListUrl service_sid, none)])
  | .ok page =>
    match paginateLoop (fun url => dispatch url none) fuel page page.items [] with
    | none => none
    | some (result, followUps) =>
      some (result,
        (documentsListUrl service_sid, none) ::
          followUps.map (fun u => (u, (none : Option Unit))))

/-- A well-formed chain of follow-up pages. `PageChain fetchNext page rest`
states that walking `next_page_url` links from `page` visits exactly the
`(URL, page)` pairs in `rest` in order — `fetchNext` answers each such URL
with its page — and that the final page's `next_page_url` is absent. -/
inductive PageChain {α : Type} (fetchNext : String → Except TwilioError (ResourcePage α)) :
    ResourcePage α → List (String × ResourcePage α) → Prop
  | last (page : ResourcePage α)
      (hnext : page.meta.next_page_url = none) :
      PageChain fetchNext page []
  | step (page : ResourcePage α) (url : String) (page' : ResourcePage α)
      (rest : List (String × ResourcePage α))
      (hnext : page.meta.next_page_url = some url)
      (hfetch : fetchNext url = .ok page')
      (htail : PageChain fetchNext page' rest) :
      PageChain fetchNext page ((url, page') :: rest)

/-- A chain of follow-up pages whose last fetch fails.
`PageChainFail fetchNext page rest failUrl e` states that walking
`next_page_url` links from `page` visits the pairs in `rest` successfully,
after which the last visited page points to `failUrl` and
`fetchNext failUrl` fails with `e`. -/
inductive PageChainFail {α : Type}
    (fetchNext : String → Except TwilioError (ResourcePage α)) :
    ResourcePage α → List (String × ResourcePage α) → String → TwilioError → Prop
  | here (page : ResourcePage α) (url : String) (e : TwilioError)
      (hnext : page.meta.next_page_url = some url)
      (hfetch : fetchNext url = .error e) :
      PageChainFail fetchNext page [] url e
  | step (page : ResourcePage α) (url : String) (page' : ResourcePage α)
      (rest : List (String × ResourcePage α)) (failUrl : String) (e : TwilioError)
      (hnext : page.meta.next_page_url = some url)
      (hfetch : fetchNext url = .ok page')
      (htail : PageChainFail fetchNext page' rest failUrl e) :
      PageChainFail fetchNext page ((url, page') :: rest) failUrl e

/-- `Links` from `twilly/src/sync/services.rs`. -/
structure SyncService.Links where
  documents : String
  lists : String
  maps : String
  streams : String
deriving Repr, DecidableEq

/-- `SyncService` from `twilly/src/sync/services.rs`. The
`reachability_debouncing_window` is a `u16` in the source, embedded as a
`Nat` (no arithmetic is performed on it, only comparisons). -/
structure SyncService where
  sid : String
  unique_name : Option String
  account_sid : String
  friendly_name : Option String
  date_created : String
  date_updated : String
  url : String
  webhook_url : Option String
  webhooks_from_rest_enabled : Bool
  acl_enabled : Bool
  reachability_debouncing_enabled : Bool
  reachability_debouncing_window : Nat
  links : SyncService.Links
deriving Repr, DecidableEq

/-- `CreateOrUpdateParams` from `twilly/src/sync/services.rs`. -/
structure CreateOrUpdateParams where
  friendly_name : Option String
  webhook_url : Option String
  reachability_webhooks_enabled : Option Bool
  acl_enabled : Option Bool
  reachability_debouncing_enabled : Option Bool
  reachability_debouncing_window : Option Nat
  webhooks_from_rest_enabled : Option Bool
deriving Repr, DecidableEq

/-- The rejection message for a too-small debouncing window (note it
describes the accepted bound 1000 as strict). -/
def windowTooSmallMsg : String :=
  "Reachability debouncing window must be greater than 1000 milliseconds"

/-- The rejection message for a too-large debouncing window (note it
describes the accepted bound 30000 as strict). -/
def windowTooLargeMsg : String :=
  "Reachability debouncing window must be less than 30,000 milliseconds"

/-- `validate_reachability_debouncing_window` from
`twilly/src/sync/services.rs` (lines 281-299). The argument is a `u16` in
the source (so `< 65536`); comparisons are identical over `Nat`. -/
def validate_reachability_debouncing_window (reachability_debouncing_window : Nat) :
    Except TwilioError Unit :=
  if reachability_debouncing_window < 1000 then
    .error { kind := ErrorKind.ValidationError windowTooSmallMsg }
  else if reachability_debouncing_window > 30000 then
    .error { kind := ErrorKind.ValidationError windowTooLargeMsg }
  else
    .ok ()

/-- `Services::create` from `twilly/src/sync/services.rs` (lines 94-115):
if `reachability_debouncing_window` is supplied and fails validation, return
the validation error before any dispatch; otherwise dispatch the POST with
the params. `dispatch` abstracts `client.send_request`; the second component
counts, as ghost instrumentation, how many times `dispatch` was invoked. -/
def Services.create
    (dispatch : Option CreateOrUpdateParams → Except TwilioError SyncService)
    (params : CreateOrUpdateParams) :
    Except TwilioError SyncService × Nat :=
  match params.reachability_debouncing_window with
  | some reachability_debouncing_window =>
    match validate_reachability_debouncing_window reachability_debouncing_window with
    | .error e => (.error e, 0)
    | .ok _ => (dispatch (some params), 1)
  | none => (dispatch (some params), 1)

/-- `Service::update` from `twilly/src/sync/services.rs` (lines 180-201):
identical validation-then-dispatch structure as `Services::create` (only the
target URL inside `dispatch` differs). -/
def Service.update
    (dispatch : Option CreateOrUpdateParams → Except TwilioError SyncService)
    (params : CreateOrUpdateParams) :
    Except TwilioError SyncService × Nat :=
  match params.reachability_debouncing_window with
  | some reachability_debouncing_window =>
    match validate_reachability_debouncing_window reachability_debouncing_window with
    | .error e => (.error e, 0)
    | .ok _ => (dispatch (some params), 1)
  | none => (dispatch (some params), 1)

end Twilly

namespace TwilioRust

/-- `TwilioApiError` from `twilio_rust/src/lib.rs` (same shape as twilly's,
fields private in the source). -/
structure TwilioApiError where
  code : Nat
  message : String
  more_info : String
  status : Nat
deriving Repr, DecidableEq

/-- `ErrorKind` from `twilio_rust/src/lib.rs` (lines 60-67): unlike twilly's,
it has no `ValidationError` variant. -/
inductive ErrorKind where
  | NetworkError : ReqwestError → ErrorKind
  | TwilioError : TwilioApiError → ErrorKind
  | ParsingError : ReqwestError → ErrorKind
deriving Repr, DecidableEq

/-- `TwilioError` from `twilio_rust/src/lib.rs`. -/
structure TwilioError where
  kind : ErrorKind
deriving Repr, DecidableEq

/-- `Client::send_request` from `twilio_rust/src/lib.rs` (lines 123-173),
response-classification part. The success branch is taken by matching the
status against `reqwest::StatusCode::OK`, i.e. exactly 200 — not the 2xx
class. `decodeT` embeds `response.json::<T>()`, `decodeErr` embeds
`response.json::<TwilioApiError>()`, `responseResult` the transport
outcome. -/
def send_request {α β : Type} (decodeT : β → Except ReqwestError α)
    (decodeErr : β → Except ReqwestError TwilioApiError)
    (responseResult : Except ReqwestError (HttpResponse β)) :
    Except TwilioError α :=
  match responseResult with
  | .error e => .error { kind := .NetworkError e }
  | .ok response =>
    match response.status == 200 with
    | true =>
      match decodeT response.body with
      | .ok value => .ok value
      | .error e => .error { kind := .ParsingError e }
    | false =>
      match decodeErr response.body with
      | .ok twilio_error => .error { kind := .TwilioError twilio_error }
      | .error e => .error { kind := .ParsingError e }

end TwilioRust

/-! Concrete fixtures used by the witness theorems below. -/

/-- A sample conversation record. -/
def sampleConversation (sid : String) : Twilly.Conversation :=
  { sid := sid
    account_sid := "AC0"
    chat_service_sid := "IS0"
    messaging_service_sid := "MG0"
    unique_name := none
    friendly_name := none
    date_created := "2023-01-01T00:00:00Z"
    date_updated := "2023-01-01T00:00:00Z"
    state := .Active
    url := "https://conversations.twilio.com/v1/Conversations/CH0"
    attributes := ""
    timers := { date_inactive := none, date_closed := none }
    links := { participants := "pa", messages := "me", webhooks := "we" } }

/-- Sample page metadata with the given `next_page_url`. -/
def sampleMeta (k : String) (next : Option String) : Twilly.PageMeta :=
  { page := 0
    page_size := 2
    first_page_url := "https://first"
    previous_page_url := none
    next_page_url := next
    key := k }

/-- First of two chained conversation pages. -/
def convPage1 : Twilly.ResourcePage Twilly.Conversation :=
  { items := [sampleConversation "CH1", sampleConversation "CH2"]
    meta := sampleMeta "conversations" (some "https://page2") }

/-- Second (final) conversation page. -/
def convPage2 : Twilly.ResourcePage Twilly.Conversation :=
  { items := [sampleConversation "CH3", sampleConversation "CH4"]
    meta := sampleMeta "conversations" none }

/-- A sample transport failure. -/
def netErr : Twilly.TwilioError := { kind := .NetworkError "connection reset" }

/-- Empty conversation list filters. -/
def sampleListParams : Twilly.ListParams :=
  { start_date := none, end_date := none, state := none }

/-- Dispatch oracle serving the two-page conversation chain. -/
def convDispatch (url : String) (_ : Option Twilly.ListParams) :
    Except Twilly.TwilioError (Twilly.ResourcePage Twilly.Conversation) :=
  if url = Twilly.conversationsListUrl then .ok convPage1
  else if url = "https://page2" then .ok convPage2
  else .error netErr

/-- Dispatch oracle whose follow-up fetch fails. -/
def convDispatchFail (url : String) (_ : Option Twilly.ListParams) :
    Except Twilly.TwilioError (Twilly.ResourcePage Twilly.Conversation) :=
  if url = Twilly.conversationsListUrl then .ok convPage1
  else .error netErr

/-- A sample Sync Document record. -/
def sampleDocument (sid : String) : Twilly.SyncDocument :=
  { sid := sid
    unique_name := "doc"
    account_sid := "AC0"
    service_sid := "IS0"
    url := "https://sync.twilio.com/v1/Services/IS0/Documents/ET0"
    data := "null"
    date_created := "2023-01-01T00:00:00Z"
    date_updated := "2023-01-01T00:00:00Z"
    date_expires := none
    created_by := "system"
    links := { permissions := "perm" }
    revision := "0" }

/-- First of two chained document pages. -/
def docPage1 : Twilly.ResourcePage Twilly.SyncDocument :=
  { items := [sampleDocument "ET1"]
    meta := sampleMeta "documents" (some "https://dpage2") }

/-- Second (final) document page. -/
def docPage2 : Twilly.ResourcePage Twilly.SyncDocument :=
  { items := [sampleDocument "ET2"]
    meta := sampleMeta "documents" none }

/-- Dispatch oracle serving the two-page document chain. -/
def docDispatch (url : String) (_ : Option Unit) :
    Except Twilly.TwilioError (Twilly.ResourcePage Twilly.SyncDocument) :=
  if url = Twilly.documentsListUrl "IS0" then .ok docPage1
  else if url = "https://dpage2" then .ok docPage2
  else .error netErr

/-- Sync-service params carrying only a debouncing window. -/
def windowOnlyParams (w : Nat) : Twilly.CreateOrUpdateParams :=
  { friendly_name := none
    webhook_url := none
    reachability_webhooks_enabled := none
    acl_enabled := none
    reachability_debouncing_enabled := none
    reachability_debouncing_window := some w
    webhooks_from_rest_enabled := none }

/-- A dispatch oracle for the sync-service operations that always fails;
used to witness that validation short-circuits before dispatch. -/
def serviceDispatchUnused (_ : Option Twilly.CreateOrUpdateParams) :
    Except Twilly.TwilioError Twilly.SyncService :=
  .error netErr

/-- A sample Api Error Body as returned on a 404. -/
def notFoundApiError : Twilly.TwilioApiError :=
  { code := 20404, message := "Not found", more_info := "https://m", status := 404 }

/-! Helper lemmas. -/

/-- An encoded `key=value` pair is never the empty string. -/
theorem formUrlEncodePair_ne_empty (p : String × String) :
    Twilly.formUrlEncodePair p ≠ "" := by
  intro h
  have hlen := congrArg String.length h
  have h1 : ("=" : String).length = 1 := rfl
  have h0 : ("" : String).length = 0 := rfl
  simp only [Twilly.formUrlEncodePair, String.length_append, h1, h0] at hlen
  omega

/-- The encoding of a non-empty pair list is never the empty string. -/
theorem formUrlEncodePairs_ne_empty (ps : List (String × String)) (hps : ps ≠ []) :
    Twilly.formUrlEncodePairs ps ≠ "" := by
  match ps with
  | [] => exact absurd rfl hps
  | [p] => exact formUrlEncodePair_ne_empty p
  | p :: q :: rest =>
    intro h
    have hlen := congrArg String.length h
    have h1 : ("&" : String).length = 1 := rfl
    have h0 : ("" : String).length = 0 := rfl
    simp only [Twilly.formUrlEncodePairs, String.length_append, h1, h0] at hlen
    omega

/-- Flattening lists of a uniform length `M` yields `count * M` elements. -/
theorem flatten_length_const {α : Type} (L : List (List α)) (M : Nat)
    (h : ∀ l ∈ L, l.length = M) : L.flatten.length = L.length * M := by
  induction L with
  | nil => simp
  | cons l L ih =>
    have hl : l.length = M := h l (by simp)
    have hL : ∀ l' ∈ L, l'.length = M := fun l' hl' => h l' (by simp [hl'])
    simp only [List.flatten_cons, List.length_append, List.length_cons, hl, ih hL]
    ring

/-- Running the pagination loop along a well-formed chain with enough fuel
returns all items in page order and records exactly the chain's URLs. -/
theorem paginateLoop_chain {α : Type}
    (fetchNext : String → Except Twilly.TwilioError (Twilly.ResourcePage α))
    {page : Twilly.ResourcePage α} {rest : List (String × Twilly.ResourcePage α)}
    (hchain : Twilly.PageChain fetchNext page rest) :
    ∀ fuel, rest.length ≤ fuel → ∀ acc calls,
      Twilly.paginateLoop fetchNext fuel page acc calls =
        some (.ok (acc ++ (rest.map (fun pr => pr.2.items)).flatten),
              calls.reverse ++ rest.map Prod.fst) := by
  induction hchain with
  | last page hnext =>
    intro fuel _ acc calls
    unfold Twilly.paginateLoop
    simp [hnext]
  | step page url page' rest hnext hfetch htail ih =>
    intro fuel hfuel acc calls
    match fuel with
    | 0 => simp at hfuel
    | fuel' + 1 =>
      unfold Twilly.paginateLoop
      simp only [hnext, hfetch]
      rw [ih fuel' (by simpa using Nat.le_of_succ_le_succ hfuel)
        (acc ++ page'.items) (url :: calls)]
      simp

/-- Running the pagination loop along a chain whose last fetch fails returns
exactly that error (the accumulator is dropped) and records the successful
URLs followed by the failing one. -/
theorem paginateLoop_chain_fail {α : Type}
    (fetchNext : String → Except Twilly.TwilioError (Twilly.ResourcePage α))
    {page : Twilly.ResourcePage α} {rest : List (String × Twilly.ResourcePage α)}
    {failUrl : String} {e : Twilly.TwilioError}
    (hchain : Twilly.PageChainFail fetchNext page rest failUrl e) :
    ∀ fuel, rest.length + 1 ≤ fuel → ∀ acc calls,
      Twilly.paginateLoop fetchNext fuel page acc calls =
        some (.error e, calls.reverse ++ rest.map Prod.fst ++ [failUrl]) := by
  induction hchain with
  | here page url e hnext hfetch =>
    intro fuel hfuel acc calls
    match fuel with
    | 0 => simp at hfuel
    | fuel' + 1 =>
      unfold Twilly.paginateLoop
      simp [hnext, hfetch]
  | step page url page' rest failUrl e hnext hfetch htail ih =>
    intro fuel hfuel acc calls
    match fuel with
    | 0 => simp at hfuel
    | fuel' + 1 =>
      unfold Twilly.paginateLoop
      simp only [hnext, hfetch]
      rw [ih fuel' (by simpa using Nat.le_of_succ_le_succ hfuel)
        (acc ++ page'.items) (url :: calls)]
      simp

/-! Claim theorems. -/

/-- C5: `TwilioConfig::build` fails fatally — with a message naming the
violated constraint — whenever the account SID does not start with "AC", or
its length is not 34, or the auth token's length is not 32; on inputs of
exactly the required shapes it succeeds with both fields unchanged. -/
theorem twilio_config_build_validation (account_sid auth_token : String) :
    (Twilly.strStartsWith account_sid "AC" = false →
      Twilly.TwilioConfig.build account_sid auth_token =
        .error "Account SID must start with AC")
  ∧ (Twilly.strStartsWith account_sid "AC" = true → account_sid.utf8ByteSize ≠ 34 →
      Twilly.TwilioConfig.build account_sid auth_token =
        .error ("Account SID should be 34 characters in length. Was "
          ++ toString account_sid.utf8ByteSize))
  ∧ (Twilly.strStartsWith account_sid "AC" = true → account_sid.utf8ByteSize = 34 →
      auth_token.utf8ByteSize ≠ 32 →
      Twilly.TwilioConfig.build account_sid auth_token =
        .error ("Auth token should be 32 characters in length. Was "
          ++ toString auth_token.utf8ByteSize))
  ∧ (Twilly.strStartsWith account_sid "AC" = true → account_sid.utf8ByteSize = 34 →
      auth_token.utf8ByteSize = 32 →
      Twilly.TwilioConfig.build account_sid auth_token =
        .ok { account_sid := account_sid, auth_token := auth_token }) := by
  refine ⟨fun h1 => ?_, fun h1 h2 => ?_, fun h1 h2 h3 => ?_, fun h1 h2 h3 => ?_⟩
  · simp [Twilly.TwilioConfig.build, h1]
  · simp [Twilly.TwilioConfig.build, h1, h2]
  · simp [Twilly.TwilioConfig.build, h1, h2, h3]
  · simp [Twilly.TwilioConfig.build, h1, h2, h3]

/-- C5 witness: the valid example credentials round-trip; a SID without the
"AC" prefix, a 23-byte SID, and a 20-byte token each fail with the message
naming their constraint. -/
theorem twilio_config_build_validation_witness :
    Twilly.TwilioConfig.build "AC11111111111111111111111111111111"
        "11111111111111111111111111111111" =
      .ok { account_sid := "AC11111111111111111111111111111111",
            auth_token := "11111111111111111111111111111111" }
  ∧ Twilly.TwilioConfig.build "ThisisnotanaccountSID" "1234" =
      .error "Account SID must start with AC"
  ∧ Twilly.TwilioConfig.build "ACThisisnotanaccountSID" "1234" =
      .error "Account SID should be 34 characters in length. Was 23"
  ∧ Twilly.TwilioConfig.build "AC11111111111111111111111111111111"
        "11111111111111111111" =
      .error "Auth token should be 32 characters in length. Was 20" := by
  refine ⟨(twilio_config_build_validation _ _).2.2.2 rfl rfl rfl,
    (twilio_config_build_validation _ _).1 rfl, ?_, ?_⟩
  · exact ((twilio_config_build_validation "ACThisisnotanaccountSID" "1234").2.1
      rfl (by decide)).trans rfl
  · exact ((twilio_config_build_validation "AC11111111111111111111111111111111"
      "11111111111111111111").2.2.1 rfl rfl (by decide)).trans rfl

/-- C8: every request built by `send_http_request`, for every method and
every parameter value, carries HTTP Basic authentication with the config's
account SID as username and auth token as password. -/
theorem send_http_request_always_basic_auth (config : Twilly.TwilioConfig)
    (method : Twilly.Method) (url : String)
    (params : Option (List (String × String))) :
    (Twilly.send_http_request config method url params).basic_auth =
      some (config.account_sid, config.auth_token) := by
  cases method <;> rfl

/-- C9: `Client::new` performs no credential validation: for every config
value — including one violating the "AC"-prefix and length constraints,
which `TwilioConfig::build` rejects — it succeeds and the client's config
equals the input field-for-field. -/
theorem client_new_no_validation :
    (∀ config : Twilly.TwilioConfig, (Twilly.Client.new config).config = config)
  ∧ (Twilly.Client.new { account_sid := "bad-sid", auth_token := "x" }).config =
      { account_sid := "bad-sid", auth_token := "x" }
  ∧ Twilly.TwilioConfig.build "bad-sid" "x" =
      .error "Account SID must start with AC" :=
  ⟨fun _ => rfl, rfl, rfl⟩

/-- C10: `validate_reachability_debouncing_window` rejects exactly the
windows outside [1000, 30000]; the boundary values 1000 and 30000 are
accepted, even though the rejection messages describe the bounds as strict
("greater than 1000" / "less than 30,000"). -/
theorem validate_window_bounds (w : Nat) (hw : w < 65536) :
    ((∃ msg, Twilly.validate_reachability_debouncing_window w =
        .error { kind := Twilly.ErrorKind.ValidationError msg }) ↔
      (w < 1000 ∨ 30000 < w))
  ∧ (w < 1000 → Twilly.validate_reachability_debouncing_window w =
      .error { kind := Twilly.ErrorKind.ValidationError Twilly.windowTooSmallMsg })
  ∧ (30000 < w → Twilly.validate_reachability_debouncing_window w =
      .error { kind := Twilly.ErrorKind.ValidationError Twilly.windowTooLargeMsg })
  ∧ Twilly.validate_reachability_debouncing_window 1000 = .ok ()
  ∧ Twilly.validate_reachability_debouncing_window 30000 = .ok () := by
  refine ⟨⟨fun hmsg => ?_, fun hrange => ?_⟩, fun h => ?_, fun h => ?_, rfl, rfl⟩
  · by_cases h1 : w < 1000
    · exact Or.inl h1
    · by_cases h2 : 30000 < w
      · exact Or.inr h2
      · rcases hmsg with ⟨msg, hmsg⟩
        simp [Twilly.validate_reachability_debouncing_window, h1, h2] at hmsg
  · rcases hrange with h1 | h2
    · exact ⟨Twilly.windowTooSmallMsg,
        by simp [Twilly.validate_reachability_debouncing_window, h1]⟩
    · have h1 : ¬ w < 1000 := by omega
      exact ⟨Twilly.windowTooLargeMsg,
        by simp [Twilly.validate_reachability_debouncing_window, h1, h2]⟩
  · simp [Twilly.validate_reachability_debouncing_window, h]
  · have h1 : ¬ w < 1000 := by omega
    simp [Twilly.validate_reachability_debouncing_window, h1, h]

/-- C10 witness: the boundary value 1000 (a valid `u16`) is accepted, while
999 and 30001 are rejected with the strict-sounding messages. -/
theorem validate_window_bounds_witness :
    Twilly.validate_reachability_debouncing_window 1000 = .ok ()
  ∧ Twilly.validate_reachability_debouncing_window 999 =
      .error { kind := Twilly.ErrorKind.ValidationError Twilly.windowTooSmallMsg }
  ∧ Twilly.validate_reachability_debouncing_window 30001 =
      .error { kind := Twilly.ErrorKind.ValidationError Twilly.windowTooLargeMsg } :=
  ⟨(validate_window_bounds 1000 (by decide)).2.2.2.1,
   (validate_window_bounds 999 (by decide)).2.1 (by decide),
   (validate_window_bounds 30001 (by decide)).2.2.1 (by decide)⟩

/-- C4: parameter placement by method in `send_http_request`: for GET with a
non-empty parameter mapping, the URL-encoded pairs go to the URL's query
string and the body is empty; for every non-GET method the pairs become the
form-urlencoded body and the URL (hence its query string) is unchanged. -/
theorem send_http_request_param_placement (config : Twilly.TwilioConfig)
    (url : String) (ps : List (String × String)) :
    ((Twilly.send_http_request config .GET url (some ps)).body = "")
  ∧ ( '?' ∉ url.data → ps ≠ [] →
      (Twilly.send_http_request config .GET url (some ps)).url =
        url ++ "?" ++ Twilly.formUrlEncodePairs ps)
  ∧ ( '?' ∈ url.data → ps ≠ [] →
      (Twilly.send_http_request config .GET url (some ps)).url =
        url ++ "&" ++ Twilly.formUrlEncodePairs ps)
  ∧ (∀ method, method ≠ Twilly.Method.GET →
      (Twilly.send_http_request config method url (some ps)).url = url
      ∧ (Twilly.send_http_request config method url (some ps)).body =
          Twilly.formUrlEncodePairs ps) := by
  refine ⟨rfl, fun hq hps => ?_, fun hq hps => ?_, fun method hm => ?_⟩
  · simp [Twilly.send_http_request, Twilly.appendQuery, Twilly.encodeOptParams,
      formUrlEncodePairs_ne_empty ps hps, hq]
  · simp [Twilly.send_http_request, Twilly.appendQuery, Twilly.encodeOptParams,
      formUrlEncodePairs_ne_empty ps hps, hq]
  · cases method with
    | GET => exact absurd rfl hm
    | POST => exact ⟨rfl, rfl⟩
    | PUT => exact ⟨rfl, rfl⟩
    | DELETE => exact ⟨rfl, rfl⟩

/-- C4 witness: a GET with one parameter gets it URL-encoded into the query
string with an empty body; a POST gets it as the form body with the URL
untouched. -/
theorem send_http_request_param_placement_witness :
    (Twilly.send_http_request { account_sid := "AC0", auth_token := "t" }
        .GET "https://example.com/a" (some [("A", "b c")])).url =
      "https://example.com/a?A=b+c"
  ∧ (Twilly.send_http_request { account_sid := "AC0", auth_token := "t" }
        .GET "https://example.com/a" (some [("A", "b c")])).body = ""
  ∧ (Twilly.send_http_request { account_sid := "AC0", auth_token := "t" }
        .POST "https://example.com/a" (some [("A", "b c")])).body = "A=b+c"
  ∧ (Twilly.send_http_request { account_sid := "AC0", auth_token := "t" }
        .POST "https://example.com/a" (some [("A", "b c")])).url =
      "https://example.com/a" := by
  have h := send_http_request_param_placement
    { account_sid := "AC0", auth_token := "t" } "https://example.com/a" [("A", "b c")]
  refine ⟨(h.2.1 (by decide) (by decide)).trans (by decide), h.1,
    ((h.2.2.2 .POST (by decide)).2).trans (by decide), (h.2.2.2 .POST (by decide)).1⟩

/-- C6: for a non-success status, `send_request_and_ignore_response` yields
exactly the same Typed Error as `send_request` would (Api when the error
body parses, Parse otherwise), and a transport failure is propagated as the
same Network error by both. -/
theorem ignore_response_failure_equiv {α β : Type}
    (decodeT : β → Except ReqwestError α)
    (decodeErr : β → Except ReqwestError Twilly.TwilioApiError) :
    (∀ e : ReqwestError,
      Twilly.send_request decodeT decodeErr (.error e) =
          .error { kind := Twilly.ErrorKind.NetworkError e }
        ∧ Twilly.send_request_and_ignore_response decodeErr (.error e) =
          .error { kind := Twilly.ErrorKind.NetworkError e })
  ∧ (∀ r : HttpResponse β, isSuccessStatus r.status = false →
      ∃ te : Twilly.TwilioError,
        Twilly.send_request decodeT decodeErr (.ok r) = .error te
        ∧ Twilly.send_request_and_ignore_response decodeErr (.ok r) = .error te) := by
  refine ⟨fun e => ⟨rfl, rfl⟩, fun r h => ?_⟩
  cases hd : decodeErr r.body with
  | ok te =>
    exact ⟨{ kind := .TwilioError te },
      by simp [Twilly.send_request, h, hd],
      by simp [Twilly.send_request_and_ignore_response, h, hd]⟩
  | error e =>
    exact ⟨{ kind := .ParsingError e },
      by simp [Twilly.send_request, h, hd],
      by simp [Twilly.send_request_and_ignore_response, h, hd]⟩

/-- C6 witness: on a concrete 404 whose body parses as an Api Error Body,
both entry points return the identical Api error. -/
theorem ignore_response_failure_equiv_witness :
    ∃ te : Twilly.TwilioError,
      Twilly.send_request (fun _ : String => Except.ok (0 : Nat))
          (fun _ : String => Except.ok
            { code := 20404, message := "Not found", more_info := "https://m", status := 404 })
          (.ok { status := 404, body := "b" }) = .error te
      ∧ Twilly.send_request_and_ignore_response
          (fun _ : String => Except.ok
            { code := 20404, message := "Not found", more_info := "https://m", status := 404 })
          (.ok { status := 404, body := "b" }) = .error te :=
  (ignore_response_failure_equiv (fun _ : String => Except.ok (0 : Nat))
    (fun _ : String => Except.ok
      { code := 20404, message := "Not found", more_info := "https://m", status := 404 })).2
    { status := 404, body := "b" } (by decide)

/-- C7: `Services::create` and `Service::update` with an out-of-range
`reachability_debouncing_window` return a Validation error naming the
violated bound and never invoke the dispatch primitive (invocation count 0,
for every dispatch oracle); with an in-range value no Validation error
occurs and dispatch proceeds (count 1). -/
theorem services_window_validation
    (dispatchC dispatchU :
      Option Twilly.CreateOrUpdateParams → Except Twilly.TwilioError Twilly.SyncService)
    (params : Twilly.CreateOrUpdateParams) (w : Nat)
    (hw : params.reachability_debouncing_window = some w) :
    (w < 1000 →
      Twilly.Services.create dispatchC params =
        (.error { kind := Twilly.ErrorKind.ValidationError Twilly.windowTooSmallMsg }, 0)
      ∧ Twilly.Service.update dispatchU params =
        (.error { kind := Twilly.ErrorKind.ValidationError Twilly.windowTooSmallMsg }, 0))
  ∧ (30000 < w →
      Twilly.Services.create dispatchC params =
        (.error { kind := Twilly.ErrorKind.ValidationError Twilly.windowTooLargeMsg }, 0)
      ∧ Twilly.Service.update dispatchU params =
        (.error { kind := Twilly.ErrorKind.ValidationError Twilly.windowTooLargeMsg }, 0))
  ∧ (1000 ≤ w → w ≤ 30000 →
      Twilly.Services.create dispatchC params = (dispatchC (some params), 1)
      ∧ Twilly.Service.update dispatchU params = (dispatchU (some params), 1)) := by
  refine ⟨fun h => ?_, fun h => ?_, fun h1 h2 => ?_⟩
  · constructor <;> simp [Twilly.Services.create, Twilly.Service.update, hw,
      Twilly.validate_reachability_debouncing_window, h]
  · have h1 : ¬ w < 1000 := by omega
    constructor <;> simp [Twilly.Services.create, Twilly.Service.update, hw,
      Twilly.validate_reachability_debouncing_window, h1, h]
  · have h3 : ¬ w < 1000 := by omega
    have h4 : ¬ 30000 < w := by omega
    constructor <;> simp [Twilly.Services.create, Twilly.Service.update, hw,
      Twilly.validate_reachability_debouncing_window, h3, h4]

/-- C7 witness: window 500 short-circuits create with the lower-bound
message and zero dispatches; 40000 short-circuits update with the
upper-bound message; 5000 dispatches normally. -/
theorem services_window_validation_witness :
    Twilly.Services.create serviceDispatchUnused (windowOnlyParams 500) =
      (.error { kind := Twilly.ErrorKind.ValidationError Twilly.windowTooSmallMsg }, 0)
  ∧ Twilly.Service.update serviceDispatchUnused (windowOnlyParams 40000) =
      (.error { kind := Twilly.ErrorKind.ValidationError Twilly.windowTooLargeMsg }, 0)
  ∧ Twilly.Services.create serviceDispatchUnused (windowOnlyParams 5000) =
      (serviceDispatchUnused (some (windowOnlyParams 5000)), 1) :=
  ⟨((services_window_validation serviceDispatchUnused serviceDispatchUnused
      (windowOnlyParams 500) 500 rfl).1 (by decide)).1,
   ((services_window_validation serviceDispatchUnused serviceDispatchUnused
      (windowOnlyParams 40000) 40000 rfl).2.1 (by decide)).2,
   ((services_window_validation serviceDispatchUnused serviceDispatchUnused
      (windowOnlyParams 5000) 5000 rfl).2.2 (by decide) (by decide)).1⟩

/-- C1 (amended): status-before-body classification of the typed dispatch.
For twilly's `send_request` exactly as the claim states, with success
meaning the 2xx class [200,300): a 2xx response whose body decodes into the
target type is success with that value; a 2xx with undecodable body is a
Parse error; a non-2xx whose body decodes as an Api Error Body is an Api
error carrying that body verbatim; a non-2xx with undecodable body is a
Parse error; and the status check happens strictly before any body
deserialization (on a 2xx the result never depends on the error-body
decoder, on a non-2xx never on the target decoder). For twilio_rust's
`send_request` the same four-way classification holds but with the success
branch taken only for status exactly 200: any other status — including
201-299 — goes through the error-body path. -/
theorem dispatch_status_classification {α β : Type}
    (decodeT : β → Except ReqwestError α)
    (decodeErr : β → Except ReqwestError Twilly.TwilioApiError)
    (r : HttpResponse β) :
    (isSuccessStatus r.status = true → ∀ v, decodeT r.body = .ok v →
      Twilly.send_request decodeT decodeErr (.ok r) = .ok v)
  ∧ (isSuccessStatus r.status = true → ∀ e, decodeT r.body = .error e →
      Twilly.send_request decodeT decodeErr (.ok r) =
        .error { kind := Twilly.ErrorKind.ParsingError e })
  ∧ (isSuccessStatus r.status = false → ∀ te, decodeErr r.body = .ok te →
      Twilly.send_request decodeT decodeErr (.ok r) =
        .error { kind := Twilly.ErrorKind.TwilioError te })
  ∧ (isSuccessStatus r.status = false → ∀ e, decodeErr r.body = .error e →
      Twilly.send_request decodeT decodeErr (.ok r) =
        .error { kind := Twilly.ErrorKind.ParsingError e })
  ∧ (isSuccessStatus r.status = true →
      ∀ decodeErr2 : β → Except ReqwestError Twilly.TwilioApiError,
        Twilly.send_request decodeT decodeErr (.ok r) =
          Twilly.send_request decodeT decodeErr2 (.ok r))
  ∧ (isSuccessStatus r.status = false →
      ∀ decodeT2 : β → Except ReqwestError α,
        Twilly.send_request decodeT decodeErr (.ok r) =
          Twilly.send_request decodeT2 decodeErr (.ok r))
  ∧ (∀ decodeErrR : β → Except ReqwestError TwilioRust.TwilioApiError,
      (r.status = 200 → ∀ v, decodeT r.body = .ok v →
        TwilioRust.send_request decodeT decodeErrR (.ok r) = .ok v)
      ∧ (r.status = 200 → ∀ e, decodeT r.body = .error e →
          TwilioRust.send_request decodeT decodeErrR (.ok r) =
            .error { kind := TwilioRust.ErrorKind.ParsingError e })
      ∧ (r.status ≠ 200 → ∀ te, decodeErrR r.body = .ok te →
          TwilioRust.send_request decodeT decodeErrR (.ok r) =
            .error { kind := TwilioRust.ErrorKind.TwilioError te })
      ∧ (r.status ≠ 200 → ∀ e, decodeErrR r.body = .error e →
          TwilioRust.send_request decodeT decodeErrR (.ok r) =
            .error { kind := TwilioRust.ErrorKind.ParsingError e })) := by
  refine ⟨fun h v hv => ?_, fun h e he => ?_, fun h te ht => ?_, fun h e he => ?_,
    fun h decodeErr2 => ?_, fun h decodeT2 => ?_, fun decodeErrR => ?_⟩
  · simp [Twilly.send_request, h, hv]
  · simp [Twilly.send_request, h, he]
  · simp [Twilly.send_request, h, ht]
  · simp [Twilly.send_request, h, he]
  · simp [Twilly.send_request, h]
  · simp [Twilly.send_request, h]
  · refine ⟨fun h v hv => ?_, fun h e he => ?_, fun h te ht => ?_, fun h e he => ?_⟩
    · have hb : (r.status == 200) = true := by simp [h]
      simp [TwilioRust.send_request, hb, hv]
    · have hb : (r.status == 200) = true := by simp [h]
      simp [TwilioRust.send_request, hb, he]
    · have hb : (r.status == 200) = false := by simp [h]
      simp [TwilioRust.send_request, hb, ht]
    · have hb : (r.status == 200) = false := by simp [h]
      simp [TwilioRust.send_request, hb, he]

/-- C1 counterexample: the claim as stated fails on twilio_rust's
`send_request` (one of its two cited implementations). Status 201 lies in
[200,300) and the body decodes into the target type, so the claim demands
success — but twilio_rust treats only status 200 as success and instead
attempts to parse the body as an Api Error Body, yielding a Parse error
here. -/
theorem dispatch_status_classification_counterexample :
    isSuccessStatus 201 = true
  ∧ (fun _ : String => (Except.ok 0 : Except ReqwestError Nat)) "body" = Except.ok 0
  ∧ TwilioRust.send_request (fun _ : String => Except.ok (0 : Nat))
      (fun _ : String => Except.error "no error body")
      (.ok { status := 201, body := "body" }) =
      .error { kind := TwilioRust.ErrorKind.ParsingError "no error body" }
  ∧ TwilioRust.send_request (fun _ : String => Except.ok (0 : Nat))
      (fun _ : String => Except.error "no error body")
      (.ok { status := 201, body := "body" }) ≠ .ok 0 :=
  ⟨rfl, rfl, rfl, by decide⟩

/-- C1 witness: a 204 with decodable body succeeds in twilly; a 404 whose
body parses as an Api Error Body yields that Api error verbatim in twilly;
a 200 with decodable body succeeds in twilio_rust. -/
theorem dispatch_status_classification_witness :
    Twilly.send_request (fun _ : String => Except.ok (7 : Nat))
        (fun _ : String => Except.error "nope")
        (.ok { status := 204, body := "ignored" }) = .ok 7
  ∧ Twilly.send_request (fun _ : String => (Except.error "bad json" : Except ReqwestError Nat))
        (fun _ : String => Except.ok notFoundApiError)
        (.ok { status := 404, body := "b" }) =
      .error { kind := Twilly.ErrorKind.TwilioError notFoundApiError }
  ∧ TwilioRust.send_request (fun _ : String => Except.ok (7 : Nat))
        (fun _ : String => Except.error "nope")
        (.ok { status := 200, body := "y" }) = .ok 7 :=
  ⟨(dispatch_status_classification (fun _ : String => Except.ok (7 : Nat))
      (fun _ : String => Except.error "nope")
      { status := 204, body := "ignored" }).1 (by decide) 7 rfl,
   (dispatch_status_classification (fun _ : String => (Except.error "bad json" : Except ReqwestError Nat))
      (fun _ : String => Except.ok notFoundApiError)
      { status := 404, body := "b" }).2.2.1 (by decide) notFoundApiError rfl,
   ((dispatch_status_classification (fun _ : String => Except.ok (7 : Nat))
      (fun _ : String => Except.error "x")
      { status := 200, body := "y" }).2.2.2.2.2.2
      (fun _ : String => Except.error "nope")).1 rfl 7 rfl⟩

/-- C2: for every chain of N pages (each `next_page_url` pointing to the
next, the last absent) with M items per page, the eager pagination loop of
`Conversations::list` returns exactly N×M items in page-then-within-page
order (the server's per-page order concatenated in fetch order), issues
exactly N dispatch calls — the first carrying the caller's parameters, each
follow-up carrying none (only the `next_page_url`) — and terminates (a fuel
bound of N-1 loop iterations suffices). The final conjunct states the same
for `Documents::list`, whose first call carries no parameters. -/
theorem pagination_completeness
    (dispatchConv : String → Option Twilly.ListParams →
      Except Twilly.TwilioError (Twilly.ResourcePage Twilly.Conversation))
    (params : Twilly.ListParams)
    (page : Twilly.ResourcePage Twilly.Conversation)
    (rest : List (String × Twilly.ResourcePage Twilly.Conversation))
    (M fuel : Nat)
    (hfirst : dispatchConv Twilly.conversationsListUrl (some params) = .ok page)
    (hchain : Twilly.PageChain (fun url => dispatchConv url none) page rest)
    (hM : page.items.length = M)
    (hMrest : ∀ pr ∈ rest, pr.2.items.length = M)
    (hfuel : rest.length ≤ fuel) :
    (Twilly.Conversations.list dispatchConv params fuel =
      some (.ok (page.items ++ (rest.map (fun pr => pr.2.items)).flatten),
        (Twilly.conversationsListUrl, some params) ::
          rest.map (fun pr => (pr.1, (none : Option Twilly.ListParams)))))
  ∧ (page.items ++ (rest.map (fun pr => pr.2.items)).flatten).length =
      (rest.length + 1) * M
  ∧ ((Twilly.conversationsListUrl, some params) ::
      rest.map (fun pr => (pr.1, (none : Option Twilly.ListParams)))).length =
      rest.length + 1
  ∧ (∀ (dispatchDoc : String → Option Unit →
        Except Twilly.TwilioError (Twilly.ResourcePage Twilly.SyncDocument))
      (service_sid : String) (dpage : Twilly.ResourcePage Twilly.SyncDocument)
      (drest : List (String × Twilly.ResourcePage Twilly.SyncDocument))
      (dM dfuel : Nat),
      dispatchDoc (Twilly.documentsListUrl service_sid) none = .ok dpage →
      Twilly.PageChain (fun url => dispatchDoc url none) dpage drest →
      dpage.items.length = dM →
      (∀ pr ∈ drest, pr.2.items.length = dM) →
      drest.length ≤ dfuel →
      Twilly.Documents.list dispatchDoc service_sid dfuel =
        some (.ok (dpage.items ++ (drest.map (fun pr => pr.2.items)).flatten),
          (Twilly.documentsListUrl service_sid, (none : Option Unit)) ::
            drest.map (fun pr => (pr.1, (none : Option Unit))))
      ∧ (dpage.items ++ (drest.map (fun pr => pr.2.items)).flatten).length =
          (drest.length + 1) * dM) := by
  have lenfact : ∀ {γ : Type} (first : List γ)
      (prs : List (String × Twilly.ResourcePage γ)) (m : Nat),
      first.length = m → (∀ pr ∈ prs, pr.2.items.length = m) →
      (first ++ (prs.map (fun pr => pr.2.items)).flatten).length =
        (prs.length + 1) * m := by
    intro γ first prs m h1 h2
    have h3 : ∀ l ∈ prs.map (fun pr => pr.2.items), l.length = m := by
      intro l hl
      rcases List.mem_map.mp hl with ⟨pr, hpr, rfl⟩
      exact h2 pr hpr
    rw [List.length_append, h1, flatten_length_const _ m h3, List.length_map]
    ring
  refine ⟨?_, lenfact page.items rest M hM hMrest, by simp,
    fun dispatchDoc service_sid dpage drest dM dfuel g1 g2 g3 g4 g5 =>
      ⟨?_, lenfact dpage.items drest dM g3 g4⟩⟩
  · simp only [Twilly.Conversations.list, hfirst]
    rw [paginateLoop_chain _ hchain fuel hfuel page.items []]
    simp [List.map_map]
  · simp only [Twilly.Documents.list, g1]
    rw [paginateLoop_chain _ g2 dfuel g5 dpage.items []]
    simp [List.map_map]

/-- C2 witness: a concrete two-page chain with two conversations per page
yields all four items in page order with exactly two dispatch calls (first
with the filters, second with none); likewise a two-page document chain
with one item per page. -/
theorem pagination_completeness_witness :
    Twilly.Conversations.list convDispatch sampleListParams 1 =
      some (.ok [sampleConversation "CH1", sampleConversation "CH2",
                 sampleConversation "CH3", sampleConversation "CH4"],
        [(Twilly.conversationsListUrl, some sampleListParams), ("https://page2", none)])
  ∧ Twilly.Documents.list docDispatch "IS0" 1 =
      some (.ok [sampleDocument "ET1", sampleDocument "ET2"],
        [(Twilly.documentsListUrl "IS0", none), ("https://dpage2", none)]) := by
  have hconvchain : Twilly.PageChain (fun url => convDispatch url none) convPage1
      [("https://page2", convPage2)] :=
    Twilly.PageChain.step _ _ _ _ (by decide) (by decide)
      (Twilly.PageChain.last _ (by decide))
  have hdocchain : Twilly.PageChain (fun url => docDispatch url none) docPage1
      [("https://dpage2", docPage2)] :=
    Twilly.PageChain.step _ _ _ _ (by decide) (by decide)
      (Twilly.PageChain.last _ (by decide))
  have h := pagination_completeness convDispatch sampleListParams convPage1
    [("https://page2", convPage2)] 2 1 (by decide) hconvchain (by decide)
    (by intro pr hpr; rw [List.mem_singleton] at hpr; subst hpr; decide) (by decide)
  refine ⟨h.1.trans (by decide), ?_⟩
  have hd := h.2.2.2 docDispatch "IS0" docPage1 [("https://dpage2", docPage2)] 1 1
    (by decide) hdocchain (by decide)
    (by intro pr hpr; rw [List.mem_singleton] at hpr; subst hpr; decide) (by decide)
  exact hd.1.trans (by decide)

/-- C3: if the dispatch of page K fails with a Typed Error, the eager
pagination loop of `Conversations::list` returns exactly that error — an
`Except.error` result, which by construction carries no items, so every
item accumulated from pages 1..K-1 is discarded — and exactly K dispatch
calls were made (the recorded call trace has length K). The first conjunct
is the K = 1 case (the initial dispatch fails), the second covers K ≥ 2 via
a chain of K-2 successful follow-ups and a failing one. -/
theorem pagination_abort
    (dispatchConv : String → Option Twilly.ListParams →
      Except Twilly.TwilioError (Twilly.ResourcePage Twilly.Conversation))
    (params : Twilly.ListParams) (fuel : Nat) :
    (∀ e, dispatchConv Twilly.conversationsListUrl (some params) = .error e →
      Twilly.Conversations.list dispatchConv params fuel =
        some (.error e, [(Twilly.conversationsListUrl, some params)]))
  ∧ (∀ page rest failUrl e,
      dispatchConv Twilly.conversationsListUrl (some params) = .ok page →
      Twilly.PageChainFail (fun url => dispatchConv url none) page rest failUrl e →
      rest.length + 1 ≤ fuel →
      Twilly.Conversations.list dispatchConv params fuel =
        some (.error e,
          (Twilly.conversationsListUrl, some params) ::
            (rest.map Prod.fst ++ [failUrl]).map
              (fun u => (u, (none : Option Twilly.ListParams))))
      ∧ ((Twilly.conversationsListUrl, some params) ::
          (rest.map Prod.fst ++ [failUrl]).map
            (fun u => (u, (none : Option Twilly.ListParams)))).length =
          rest.length + 2) := by
  constructor
  · intro e he
    simp [Twilly.Conversations.list, he]
  · intro page rest failUrl e hfirst hchain hfuel
    constructor
    · simp only [Twilly.Conversations.list, hfirst]
      rw [paginateLoop_chain_fail _ hchain fuel hfuel page.items []]
      simp
    · simp [List.length_append, List.length_map]

/-- C3 witness: the follow-up fetch of page 2 fails; the operation returns
exactly that network error with no items and the trace records exactly 2
dispatch calls. -/
theorem pagination_abort_witness :
    Twilly.Conversations.list convDispatchFail sampleListParams 1 =
      some (.error netErr,
        [(Twilly.conversationsListUrl, some sampleListParams), ("https://page2", none)]) := by
  have hchain : Twilly.PageChainFail (fun url => convDispatchFail url none) convPage1
      [] "https://page2" netErr :=
    Twilly.PageChainFail.here _ _ _ (by decide) (by decide)
  have h := ((pagination_abort convDispatchFail sampleListParams 1).2 convPage1 []
    "https://page2" netErr (by decide) hchain (by decide)).1
  exact h.trans (by decide)
